import Mathlib

/-!
Verification development for the volleyball roster-and-statistics service.

The repository contains two revisions of the same Express/PostgreSQL server.
The later revision (the one the specification documents as its data model:
standalone `sessions` entity, `player_sessions` upsert keyed on
`UNIQUE(player_id, session_id)`, and full counter recomputation) is embedded
below as pure functions over an explicit database state.  SQL statements are
translated directly from the handler bodies; constraint behaviour
(`UNIQUE`, foreign keys, `ON DELETE CASCADE`) follows the DDL issued by the
schema initializer.
-/

/-- Skill tier enumeration, from the CHECK constraint on `players.skill_level`. -/
inductive SkillLevel where
  | Beginner
  | Intermediate
  | Advanced
deriving DecidableEq

/-- One row of the `players` table (timestamps omitted; no claim reads them). -/
structure Player where
  id : Nat
  player_id : String
  full_name : String
  phone_number : Option String
  instagram_username : Option String
  age : Option Int
  skill_level : Option SkillLevel
  form_submissions_count : Int
  sessions_attended_count : Int
  mvp_awards_count : Int
  total_points_scored : Int
  total_saves : Int
deriving DecidableEq

/-- One row of the `sessions` table (a calendar date that occurred). -/
structure Session where
  id : Nat
  session_date : String
deriving DecidableEq

/-- One row of the `player_sessions` table: a SessionFact. -/
structure PlayerSession where
  id : Nat
  player_id : Nat
  session_id : Nat
  points_scored : Int
  saves : Int
  mvp_award : Bool
  attendance_status : String
deriving DecidableEq

/-- The database state: the three tables the claims touch, plus the next
key of each SERIAL sequence. -/
structure DB where
  players : List Player
  sessions : List Session
  player_sessions : List PlayerSession
  next_player_key : Nat
  next_session_key : Nat
  next_fact_key : Nat
deriving DecidableEq

/-- Fresh database right after schema creation: empty tables, sequences at 1. -/
def emptyDB : DB :=
  { players := [], sessions := [], player_sessions := [],
    next_player_key := 1, next_session_key := 1, next_fact_key := 1 }

/-- An HTTP response, reduced to the observables the claims mention:
the status code, the error body, and a returned surrogate key. -/
structure Resp where
  status : Nat
  error : Option String := none
  key : Option Nat := none
deriving DecidableEq

/-! ## Aggregates over SessionFact rows -/

/-- The SessionFact rows of one player: `... FROM player_sessions WHERE player_id = $1`. -/
def factsFor (db : DB) (pid : Nat) : List PlayerSession :=
  db.player_sessions.filter (fun ps => ps.player_id == pid)

/-- `SELECT SUM(points_scored) FROM player_sessions WHERE player_id = $1` with COALESCE 0. -/
def sumPoints (db : DB) (pid : Nat) : Int :=
  ((factsFor db pid).map (fun ps => ps.points_scored)).sum

/-- `SELECT SUM(saves) FROM player_sessions WHERE player_id = $1` with COALESCE 0. -/
def sumSaves (db : DB) (pid : Nat) : Int :=
  ((factsFor db pid).map (fun ps => ps.saves)).sum

/-- `SELECT COUNT(*) FROM player_sessions WHERE player_id = $1 AND mvp_award = true`. -/
def mvpCount (db : DB) (pid : Nat) : Nat :=
  ((factsFor db pid).filter (fun ps => ps.mvp_award)).length

/-- `SELECT COUNT(*) FROM player_sessions WHERE player_id = $1`. -/
def sessionCount (db : DB) (pid : Nat) : Nat :=
  (factsFor db pid).length

/-- `SELECT * FROM players WHERE id = $1` (first row, if any). -/
def findPlayer (db : DB) (key : Nat) : Option Player :=
  db.players.find? (fun p => p.id == key)

/-- The four running counters of a player row agree with the aggregates over
that player's current SessionFact rows. -/
def countersMatchB (db : DB) (p : Player) : Bool :=
  p.total_points_scored == sumPoints db p.id
    && p.total_saves == sumSaves db p.id
    && p.mvp_awards_count == ((mvpCount db p.id : Nat) : Int)
    && p.sessions_attended_count == ((sessionCount db p.id : Nat) : Int)

/-- Referential integrity of `player_sessions.player_id REFERENCES players(id)`:
every SessionFact row names an existing player.  The storage engine enforces
this; it is stated as an explicit invariant on states. -/
def fkPlayersB (db : DB) : Bool :=
  db.player_sessions.all (fun ps => db.players.any (fun p => p.id == ps.player_id))

/-- Does a SessionFact row for the (player, session) pair match? -/
def pairMatch (pid sid : Nat) (ps : PlayerSession) : Bool :=
  ps.player_id == pid && ps.session_id == sid

/-- No row of the list carries the given (player, session) pair. -/
def pairFree (pid sid : Nat) (l : List PlayerSession) : Bool :=
  l.all (fun ps => !(pairMatch pid sid ps))

/-- The `UNIQUE(player_id, session_id)` constraint: pairwise distinct pairs. -/
def pairUniqueB : List PlayerSession → Bool
  | [] => true
  | ps :: rest => pairFree ps.player_id ps.session_id rest && pairUniqueB rest

/-- Pairwise distinct surrogate keys in the players table (the PRIMARY KEY). -/
def idsNodupB : List Player → Bool
  | [] => true
  | p :: rest => !(rest.any (fun q => q.id == p.id)) && idsNodupB rest

/-! ## Player Directory handlers -/

/-- Request body of `POST /api/players`.  A JS-falsy (absent or empty) string
field is modelled as the empty string; optional fields as `Option`. -/
structure CreatePlayerReq where
  player_id : String
  full_name : String
  phone_number : Option String
  instagram_username : Option String
  age : Option Int
  skill_level : Option SkillLevel
deriving DecidableEq

/-- The row inserted by `POST /api/players`: counters start at their DEFAULT 0,
the surrogate key is drawn from the sequence. -/
def newPlayer (db : DB) (r : CreatePlayerReq) : Player :=
  { id := db.next_player_key,
    player_id := r.player_id,
    full_name := r.full_name,
    phone_number := r.phone_number,
    instagram_username := r.instagram_username,
    age := r.age,
    skill_level := r.skill_level,
    form_submissions_count := 0,
    sessions_attended_count := 0,
    mvp_awards_count := 0,
    total_points_scored := 0,
    total_saves := 0 }

/-- `POST /api/players`: validate the two required fields, then INSERT.
A unique violation of `players.player_id` (PG error 23505) is answered with
400 and a message naming the colliding identifier; success returns the
assigned surrogate key (`RETURNING id`). -/
def postPlayers (db : DB) (r : CreatePlayerReq) : Resp × DB :=
  if r.player_id == "" || r.full_name == "" then
    ({ status := 400, error := some "Player ID and Full Name are required" }, db)
  else if db.players.any (fun p => p.player_id == r.player_id) then
    ({ status := 400,
       error := some ("Player ID \"" ++ r.player_id ++ "\" already exists") }, db)
  else
    ({ status := 200, key := some db.next_player_key },
      { db with
          players := db.players ++ [newPlayer db r],
          next_player_key := db.next_player_key + 1 })

/-- Request body of `PUT /api/players/:id`.  The handler reads the fields
without any presence check; an absent field arrives at the database as NULL,
so the two NOT NULL columns are modelled as `Option String` here. -/
structure UpdatePlayerReq where
  player_id : Option String
  full_name : Option String
  phone_number : Option String
  instagram_username : Option String
  age : Option Int
  skill_level : Option SkillLevel
deriving DecidableEq

/-- The profile replacement performed by the UPDATE statement. -/
def updatedPlayer (p : Player) (pid name : String) (r : UpdatePlayerReq) : Player :=
  { p with
      player_id := pid, full_name := name,
      phone_number := r.phone_number,
      instagram_username := r.instagram_username,
      age := r.age, skill_level := r.skill_level }

/-- `PUT /api/players/:id`: the UPDATE touches at most the row at the given
key (404 when none matches).  The handler performs no field validation and
its catch block has no unique-violation branch, so a NOT NULL violation or a
`player_id` collision surfaces as 500 carrying the raw storage error text. -/
def putPlayer (db : DB) (key : Nat) (r : UpdatePlayerReq) : Resp × DB :=
  if db.players.any (fun p => p.id == key) then
    match r.player_id, r.full_name with
    | some pid, some name =>
      if db.players.any (fun p => !(p.id == key) && p.player_id == pid) then
        ({ status := 500,
           error := some "duplicate key value violates unique constraint players_player_id_key" }, db)
      else
        ({ status := 200 },
          { db with players :=
              db.players.map (fun p => if p.id == key then updatedPlayer p pid name r else p) })
    | none, _ =>
      ({ status := 500,
         error := some "null value in column player_id violates not-null constraint" }, db)
    | some _, none =>
      ({ status := 500,
         error := some "null value in column full_name violates not-null constraint" }, db)
  else
    ({ status := 404, error := some "Player not found" }, db)

/-- `DELETE /api/players/:id`: one DELETE on `players`; the removal of the
SessionFact rows is the `ON DELETE CASCADE` referential action of
`player_sessions.player_id`, not application logic. -/
def deletePlayer (db : DB) (key : Nat) : Resp × DB :=
  if db.players.any (fun p => p.id == key) then
    ({ status := 200 },
      { db with
          players := db.players.filter (fun p => !(p.id == key)),
          player_sessions := db.player_sessions.filter (fun ps => !(ps.player_id == key)) })
  else
    ({ status := 404, error := some "Player not found" }, db)

/-- `GET /api/players/:id`: 404 when the key resolves to no row. -/
def getPlayerById (db : DB) (key : Nat) : Resp :=
  match findPlayer db key with
  | none => { status := 404, error := some "Player not found" }
  | some _ => { status := 200 }

/-! ## Session Ledger handlers -/

/-- Request body of `POST /api/sessions` (later revision: just a date). -/
structure CreateSessionReq where
  session_date : String
deriving DecidableEq

/-- `POST /api/sessions`: requires a date; a unique violation of
`sessions.session_date` (PG error 23505) is answered with 400 naming the
date. -/
def postSessions (db : DB) (r : CreateSessionReq) : Resp × DB :=
  if r.session_date == "" then
    ({ status := 400, error := some "Session date is required" }, db)
  else if db.sessions.any (fun s => s.session_date == r.session_date) then
    ({ status := 400,
       error := some ("Session for date \"" ++ r.session_date ++ "\" already exists") }, db)
  else
    ({ status := 200, key := some db.next_session_key },
      { db with
          sessions := db.sessions ++
            [{ id := db.next_session_key, session_date := r.session_date }],
          next_session_key := db.next_session_key + 1 })

/-- Request body of `POST /api/player-sessions`.  The keys are numbers; the
JS falsiness test rejects 0 and absent alike, so 0 stands for both.  The stat
fields are optional; the handler applies `|| 0` and `|| false` defaults. -/
structure RecordStatsReq where
  player_id : Nat
  session_id : Nat
  points_scored : Option Int
  saves : Option Int
  mvp_award : Option Bool
deriving DecidableEq

/-- The `INSERT ... ON CONFLICT (player_id, session_id) DO UPDATE` statement:
if a row for the pair exists, overwrite its points, saves and MVP flag
(id and attendance untouched); otherwise append a fresh row with the
DEFAULT attendance value. -/
def upsertFact (db : DB) (pid sid : Nat) (pts sv : Int) (mvp : Bool) : DB :=
  if db.player_sessions.any (pairMatch pid sid) then
    { db with player_sessions :=
        db.player_sessions.map (fun ps =>
          if pairMatch pid sid ps then
            { ps with points_scored := pts, saves := sv, mvp_award := mvp }
          else ps) }
  else
    { db with
        player_sessions := db.player_sessions ++
          [{ id := db.next_fact_key, player_id := pid, session_id := sid,
             points_scored := pts, saves := sv, mvp_award := mvp,
             attendance_status := "Present" }],
        next_fact_key := db.next_fact_key + 1 }

/-- The `UPDATE players SET ... WHERE id = $1` statement that overwrites the
four running counters with aggregates over all of that player's SessionFact
rows in the current state. -/
def updateCounters (db : DB) (pid : Nat) : DB :=
  { db with players :=
      db.players.map (fun p =>
        if p.id == pid then
          { p with
              total_points_scored := sumPoints db pid,
              total_saves := sumSaves db pid,
              mvp_awards_count := ((mvpCount db pid : Nat) : Int),
              sessions_attended_count := ((sessionCount db pid : Nat) : Int) }
        else p) }

/-- Whether the upsert statement passes the foreign key checks: the DO UPDATE
arm leaves the referencing columns unchanged, while a fresh INSERT requires
the referenced player and session rows to exist. -/
def factInsertOk (db : DB) (pid sid : Nat) : Bool :=
  db.player_sessions.any (pairMatch pid sid)
    || (db.players.any (fun p => p.id == pid) && db.sessions.any (fun s => s.id == sid))

/-- `POST /api/player-sessions`, the compound operation: validate, then run
the upsert and the counter recompute inside BEGIN/COMMIT; any statement
failure (here: a foreign key violation) triggers ROLLBACK, leaving the state
unchanged, and is reported as 500. -/
def postPlayerSessions (db : DB) (r : RecordStatsReq) : Resp × DB :=
  if r.player_id == 0 || r.session_id == 0 then
    ({ status := 400, error := some "Player ID and Session ID are required" }, db)
  else if factInsertOk db r.player_id r.session_id then
    ({ status := 200 },
      updateCounters
        (upsertFact db r.player_id r.session_id
          (r.points_scored.getD 0) (r.saves.getD 0) (r.mvp_award.getD false))
        r.player_id)
  else
    ({ status := 500,
       error := some "insert or update on table player_sessions violates foreign key constraint" }, db)

/-! ## Statistics Aggregator -/

/-- PostgreSQL `ROUND(numeric, 2)`: round half away from zero at the second
decimal place. -/
def pgRound2 (q : Rat) : Rat :=
  if 0 ≤ q then ((Int.floor (q * 100 + 1 / 2) : Int) : Rat) / 100
  else -(((Int.floor (-(q * 100) + 1 / 2) : Int) : Rat) / 100)

/-- One row of the `GET /api/players` (roster with statistics) result. -/
structure PlayerStatsRow where
  id : Nat
  player_id : String
  full_name : String
  phone_number : Option String
  instagram_username : Option String
  age : Option Int
  skill_level : Option SkillLevel
  form_submissions_count : Int
  sessions_attended_count : Int
  mvp_awards_count : Int
  total_points_scored : Int
  total_saves : Int
  avg_points_per_session : Rat
  avg_saves_per_session : Rat
deriving DecidableEq

/-- The SELECT list of `GET /api/players`: profile fields plus counters plus
the two CASE expressions guarding the division by the session count. -/
def playerStatsRow (p : Player) : PlayerStatsRow :=
  { id := p.id, player_id := p.player_id, full_name := p.full_name,
    phone_number := p.phone_number, instagram_username := p.instagram_username,
    age := p.age, skill_level := p.skill_level,
    form_submissions_count := p.form_submissions_count,
    sessions_attended_count := p.sessions_attended_count,
    mvp_awards_count := p.mvp_awards_count,
    total_points_scored := p.total_points_scored,
    total_saves := p.total_saves,
    avg_points_per_session :=
      if 0 < p.sessions_attended_count then
        pgRound2 ((p.total_points_scored : Rat) * 1 / (p.sessions_attended_count : Rat))
      else 0,
    avg_saves_per_session :=
      if 0 < p.sessions_attended_count then
        pgRound2 ((p.total_saves : Rat) * 1 / (p.sessions_attended_count : Rat))
      else 0 }

/-- Insert a player into a name-ordered list (model of ORDER BY full_name). -/
def insertByName (p : Player) : List Player → List Player
  | [] => [p]
  | q :: rest =>
    if p.full_name ≤ q.full_name then p :: q :: rest else q :: insertByName p rest

/-- Sort the roster by full name ascending. -/
def sortByName : List Player → List Player
  | [] => []
  | p :: rest => insertByName p (sortByName rest)

/-- `GET /api/players`: every player row, ordered by name, with statistics. -/
def getPlayers (db : DB) : List PlayerStatsRow :=
  (sortByName db.players).map playerStatsRow

/-- The dashboard total of MVP awards:
`SELECT COUNT(*) FROM player_sessions WHERE mvp_award = true`. -/
def totalMvps (db : DB) : Nat :=
  (db.player_sessions.filter (fun ps => ps.mvp_award)).length

/-- `POST /api/repair-database` (later revision): DROP TABLE player_sessions
and recreate it empty, resetting its sequence; no other table is touched. -/
def repairDatabase (db : DB) : Resp × DB :=
  ({ status := 200 }, { db with player_sessions := [], next_fact_key := 1 })

/-- The property C5 asserts of one result row: when the session count is
positive, each average equals the corresponding counter divided by the
session count rounded to two decimals, and otherwise it is exactly 0. -/
def avgRowOk (row : PlayerStatsRow) : Bool :=
  if 0 < row.sessions_attended_count then
    decide (row.avg_points_per_session
        = pgRound2 ((row.total_points_scored : Rat) / (row.sessions_attended_count : Rat)))
      && decide (row.avg_saves_per_session
        = pgRound2 ((row.total_saves : Rat) / (row.sessions_attended_count : Rat)))
  else
    decide (row.avg_points_per_session = 0) && decide (row.avg_saves_per_session = 0)

/-! ## Concrete states used by the witnesses -/

/-- A create request for the scenario player Ann. -/
def reqAnn : CreatePlayerReq :=
  { player_id := "P1", full_name := "Ann", phone_number := none,
    instagram_username := none, age := none, skill_level := none }

/-- A create request for a second player. -/
def reqBob : CreatePlayerReq :=
  { player_id := "P2", full_name := "Bob", phone_number := none,
    instagram_username := none, age := none, skill_level := none }

/-- State after creating Ann. -/
def dbA : DB := (postPlayers emptyDB reqAnn).2

/-- State after creating Ann and Bob. -/
def dbAB : DB := (postPlayers dbA reqBob).2

/-- State after creating Ann and the session of 2024-03-01. -/
def dbAS : DB := (postSessions dbA { session_date := "2024-03-01" }).2

/-- First statistics submission for (Ann, 2024-03-01). -/
def reqStats1 : RecordStatsReq :=
  { player_id := 1, session_id := 1, points_scored := some 10,
    saves := some 2, mvp_award := some true }

/-- Second statistics submission for the same pair. -/
def reqStats2 : RecordStatsReq :=
  { player_id := 1, session_id := 1, points_scored := some 7,
    saves := some 1, mvp_award := some false }

/-- State after recording the first submission: counters are consistent. -/
def dbRec : DB := (postPlayerSessions dbAS reqStats1).2

/-- State right after the repair endpoint ran on `dbRec`. -/
def dbBroken : DB := (repairDatabase dbRec).2

/-! ## General lemmas about the embedding -/

lemma nat_beq_comm (a b : Nat) : (a == b) = (b == a) := by
  by_cases h : a = b
  · subst h; rfl
  · rw [beq_eq_false_iff_ne.mpr h, beq_eq_false_iff_ne.mpr (Ne.symm h)]

lemma upsertFact_players (db : DB) (pid sid : Nat) (pts sv : Int) (mvp : Bool) :
    (upsertFact db pid sid pts sv mvp).players = db.players := by
  unfold upsertFact; split <;> rfl

lemma updateCounters_facts (db : DB) (pid : Nat) :
    (updateCounters db pid).player_sessions = db.player_sessions := rfl

lemma sumPoints_updateCounters (db : DB) (pid x : Nat) :
    sumPoints (updateCounters db pid) x = sumPoints db x := rfl

lemma sumSaves_updateCounters (db : DB) (pid x : Nat) :
    sumSaves (updateCounters db pid) x = sumSaves db x := rfl

lemma mvpCount_updateCounters (db : DB) (pid x : Nat) :
    mvpCount (updateCounters db pid) x = mvpCount db x := rfl

lemma sessionCount_updateCounters (db : DB) (pid x : Nat) :
    sessionCount (updateCounters db pid) x = sessionCount db x := rfl

/-! ## Claim C3: the compound write is atomic -/

/-- Claim C3: the record-session-statistics operation either commits both the
SessionFact upsert and the counter overwrite, or (validation failure or any
failure inside the transaction) leaves the database exactly as it was while
reporting a non-200 status — no partial commit is observable. -/
theorem record_session_statistics_atomic (db : DB) (r : RecordStatsReq) :
    ((postPlayerSessions db r).1.status = 200 ∧
      (postPlayerSessions db r).2 =
        updateCounters
          (upsertFact db r.player_id r.session_id
            (r.points_scored.getD 0) (r.saves.getD 0) (r.mvp_award.getD false))
          r.player_id)
    ∨ ((postPlayerSessions db r).1.status ≠ 200 ∧ (postPlayerSessions db r).2 = db) := by
  unfold postPlayerSessions
  split
  · exact Or.inr ⟨by simp, rfl⟩
  · split
    · exact Or.inl ⟨rfl, rfl⟩
    · exact Or.inr ⟨by simp, rfl⟩

/-! ## Claim C4: duplicate player identifier conflicts -/

/-- Claim C4: a create-player request (with its required fields present) whose
external identifier is already taken is rejected with 400 — distinct from a
generic 500 — with a message naming the colliding identifier, and the store is
untouched; without a collision the insert succeeds and the response carries
the assigned surrogate key, which is the key of the appended row. -/
theorem create_player_conflict_behavior (db : DB) (r : CreatePlayerReq)
    (hpid : (r.player_id == "") = false) (hname : (r.full_name == "") = false) :
    ((db.players.any (fun p => p.player_id == r.player_id)) = true →
      (postPlayers db r).1.status = 400
      ∧ (postPlayers db r).1.error
          = some ("Player ID \"" ++ r.player_id ++ "\" already exists")
      ∧ (postPlayers db r).2 = db)
    ∧ ((db.players.any (fun p => p.player_id == r.player_id)) = false →
      (postPlayers db r).1.status = 200
      ∧ (postPlayers db r).1.key = some db.next_player_key
      ∧ ((postPlayers db r).2.players.getLast?).map (fun p => (p.id, p.player_id))
          = some (db.next_player_key, r.player_id)) := by
  unfold postPlayers
  rw [hpid, hname]
  simp only [Bool.or_self, Bool.false_eq_true, if_false]
  constructor
  · intro hcol
    rw [if_pos hcol]
    exact ⟨rfl, rfl, rfl⟩
  · intro hcol
    rw [if_neg (by rw [hcol]; exact Bool.false_ne_true)]
    refine ⟨rfl, rfl, ?_⟩
    show ((db.players ++ [newPlayer db r]).getLast?).map _ = _
    rw [List.getLast?_concat]
    rfl

/-- Witness for C4: with Ann present, re-creating identifier P1 is a 400
conflict naming P1 and leaves the state unchanged; on the empty store the
same request succeeds and returns key 1, assigned to the new row. -/
theorem create_player_conflict_behavior_witness :
    ((postPlayers dbA reqAnn).1.status = 400
      ∧ (postPlayers dbA reqAnn).1.error = some "Player ID \"P1\" already exists"
      ∧ (postPlayers dbA reqAnn).2 = dbA)
    ∧ ((postPlayers emptyDB reqAnn).1.status = 200
      ∧ (postPlayers emptyDB reqAnn).1.key = some emptyDB.next_player_key
      ∧ ((postPlayers emptyDB reqAnn).2.players.getLast?).map (fun p => (p.id, p.player_id))
          = some (emptyDB.next_player_key, reqAnn.player_id)) :=
  ⟨(create_player_conflict_behavior dbA reqAnn (by decide) (by decide)).1 (by decide),
   (create_player_conflict_behavior emptyDB reqAnn (by decide) (by decide)).2 (by decide)⟩

/-! ## Claim C7: deleting a player cascades to its SessionFact rows -/

/-- Claim C7: deleting an existing player removes the player row and every
SessionFact row of that player (the cascade of the referential action), and a
subsequent get-by-key answers 404; deleting a key that matches no row answers
404 and changes nothing. -/
theorem delete_player_cascades (db : DB) (key : Nat) :
    ((db.players.any (fun p => p.id == key)) = true →
      (deletePlayer db key).1.status = 200
      ∧ ((deletePlayer db key).2.players.any (fun p => p.id == key)) = false
      ∧ ((deletePlayer db key).2.player_sessions.any (fun ps => ps.player_id == key)) = false
      ∧ (getPlayerById (deletePlayer db key).2 key).status = 404)
    ∧ ((db.players.any (fun p => p.id == key)) = false →
      (deletePlayer db key).1.status = 404 ∧ (deletePlayer db key).2 = db) := by
  constructor
  · intro hex
    have hd : deletePlayer db key =
        ({ status := 200 },
         { db with
             players := db.players.filter (fun p => !(p.id == key)),
             player_sessions := db.player_sessions.filter (fun ps => !(ps.player_id == key)) }) := by
      unfold deletePlayer
      rw [if_pos hex]
    rw [hd]
    refine ⟨rfl, ?_, ?_, ?_⟩
    · rw [List.any_eq_false]
      intro p hp
      rw [List.mem_filter] at hp
      simpa using hp.2
    · rw [List.any_eq_false]
      intro ps hps
      rw [List.mem_filter] at hps
      simpa using hps.2
    · show (getPlayerById _ key).status = 404
      unfold getPlayerById findPlayer
      have hnone : (db.players.filter (fun p => !(p.id == key))).find? (fun p => p.id == key)
          = none := by
        rw [List.find?_eq_none]
        intro p hp
        rw [List.mem_filter] at hp
        simpa using hp.2
      rw [hnone]
  · intro hnone
    have hd : deletePlayer db key = ({ status := 404, error := some "Player not found" }, db) := by
      unfold deletePlayer
      rw [if_neg (by rw [hnone]; exact Bool.false_ne_true)]
    rw [hd]
    exact ⟨rfl, rfl⟩

/-- Witness for C7: deleting Ann from the recorded state removes her and her
SessionFact row and get-by-key then answers 404; deleting key 5 from the
empty store answers 404 and changes nothing. -/
theorem delete_player_cascades_witness :
    ((deletePlayer dbRec 1).1.status = 200
      ∧ ((deletePlayer dbRec 1).2.players.any (fun p => p.id == 1)) = false
      ∧ ((deletePlayer dbRec 1).2.player_sessions.any (fun ps => ps.player_id == 1)) = false
      ∧ (getPlayerById (deletePlayer dbRec 1).2 1).status = 404)
    ∧ ((deletePlayer emptyDB 5).1.status = 404 ∧ (deletePlayer emptyDB 5).2 = emptyDB) :=
  ⟨(delete_player_cascades dbRec 1).1 (by decide),
   (delete_player_cascades emptyDB 5).2 (by decide)⟩

/-! ## Claim C8: session creation requires a fresh date -/

/-- Claim C8: creating a session without a date is a 400 validation failure;
creating one for a date already recorded is a 400 conflict whose message
names that date, and the store (in particular the session count) is left
unchanged. -/
theorem create_session_requires_unique_date (db : DB) (r : CreateSessionReq) :
    ((r.session_date == "") = true →
      (postSessions db r).1.status = 400
      ∧ (postSessions db r).1.error = some "Session date is required"
      ∧ (postSessions db r).2 = db)
    ∧ ((r.session_date == "") = false →
      (db.sessions.any (fun s => s.session_date == r.session_date)) = true →
      (postSessions db r).1.status = 400
      ∧ (postSessions db r).1.error
          = some ("Session for date \"" ++ r.session_date ++ "\" already exists")
      ∧ (postSessions db r).2 = db) := by
  constructor
  · intro hmiss
    unfold postSessions
    rw [if_pos hmiss]
    exact ⟨rfl, rfl, rfl⟩
  · intro hdate hdup
    unfold postSessions
    rw [if_neg (by rw [hdate]; exact Bool.false_ne_true), if_pos hdup]
    exact ⟨rfl, rfl, rfl⟩

/-- Witness for C8: on the state holding the 2024-03-01 session, a dateless
request is a 400 validation failure, and a second request for 2024-03-01 is a
400 conflict naming the date with the state unchanged. -/
theorem create_session_requires_unique_date_witness :
    ((postSessions dbAS { session_date := "" }).1.status = 400
      ∧ (postSessions dbAS { session_date := "" }).1.error = some "Session date is required"
      ∧ (postSessions dbAS { session_date := "" }).2 = dbAS)
    ∧ ((postSessions dbAS { session_date := "2024-03-01" }).1.status = 400
      ∧ (postSessions dbAS { session_date := "2024-03-01" }).1.error
          = some "Session for date \"2024-03-01\" already exists"
      ∧ (postSessions dbAS { session_date := "2024-03-01" }).2 = dbAS) :=
  ⟨(create_session_requires_unique_date dbAS { session_date := "" }).1 (by decide),
   (create_session_requires_unique_date dbAS { session_date := "2024-03-01" }).2
     (by decide) (by decide)⟩

/-! ## Claim C10: the update handler has no validation or conflict branch -/

/-- Claim C10: on an existing target row, the update operation never produces
a 400: a collision of the new external identifier with a different player
surfaces as 500 with the raw storage error text, an absent external
identifier or full name likewise surfaces as 500 (the database NOT NULL
violation), and in each case the store is unchanged. -/
theorem update_player_skips_validation (db : DB) (key : Nat) (r : UpdatePlayerReq)
    (hk : (db.players.any (fun p => p.id == key)) = true) :
    (∀ pid name, r.player_id = some pid → r.full_name = some name →
      (db.players.any (fun p => !(p.id == key) && p.player_id == pid)) = true →
      (putPlayer db key r).1.status = 500
      ∧ (putPlayer db key r).1.error
          = some "duplicate key value violates unique constraint players_player_id_key"
      ∧ (putPlayer db key r).2 = db)
    ∧ (r.player_id = none →
      (putPlayer db key r).1.status = 500 ∧ (putPlayer db key r).2 = db)
    ∧ (∀ pid, r.player_id = some pid → r.full_name = none →
      (putPlayer db key r).1.status = 500 ∧ (putPlayer db key r).2 = db) := by
  refine ⟨?_, ?_, ?_⟩
  · intro pid name hpid hname hcol
    unfold putPlayer
    rw [if_pos hk, hpid, hname]
    simp only
    rw [if_pos hcol]
    exact ⟨rfl, rfl, rfl⟩
  · intro hpid
    unfold putPlayer
    rw [if_pos hk, hpid]
    cases hname : r.full_name <;> exact ⟨rfl, rfl⟩
  · intro pid hpid hname
    unfold putPlayer
    rw [if_pos hk, hpid, hname]
    exact ⟨rfl, rfl⟩

/-- Witness for C10: with Ann (key 1, P1) and Bob (key 2, P2) present,
updating Bob to identifier P1 answers 500 with the raw duplicate-key text,
and updating Ann with no identifier at all answers 500 — neither is a 400. -/
theorem update_player_skips_validation_witness :
    ((putPlayer dbAB 2
        { player_id := some "P1", full_name := some "Bob", phone_number := none,
          instagram_username := none, age := none, skill_level := none }).1.status = 500
      ∧ (putPlayer dbAB 2
          { player_id := some "P1", full_name := some "Bob", phone_number := none,
            instagram_username := none, age := none, skill_level := none }).1.error
          = some "duplicate key value violates unique constraint players_player_id_key"
      ∧ (putPlayer dbAB 2
          { player_id := some "P1", full_name := some "Bob", phone_number := none,
            instagram_username := none, age := none, skill_level := none }).2 = dbAB)
    ∧ ((putPlayer dbAB 1
        { player_id := none, full_name := some "Ann", phone_number := none,
          instagram_username := none, age := none, skill_level := none }).1.status = 500
      ∧ (putPlayer dbAB 1
          { player_id := none, full_name := some "Ann", phone_number := none,
            instagram_username := none, age := none, skill_level := none }).2 = dbAB) :=
  ⟨(update_player_skips_validation dbAB 2 _ (by decide)).1 "P1" "Bob" rfl rfl (by decide),
   (update_player_skips_validation dbAB 1 _ (by decide)).2.1 rfl⟩

/-! ## The counter recomputation invariant (shared by C1 and C9) -/

lemma find?_update_by_id (l : List Player) (pid : Nat) (upd : Player → Player)
    (hid : ∀ p, (upd p).id = p.id) :
    (l.map (fun p => if p.id == pid then upd p else p)).find? (fun p => p.id == pid)
      = (l.find? (fun p => p.id == pid)).map upd := by
  induction l with
  | nil => rfl
  | cons p l ih =>
    rw [List.map_cons, List.find?_cons, List.find?_cons]
    by_cases hp : (p.id == pid) = true
    · simp [hp, hid]
    · rw [Bool.not_eq_true] at hp
      simp only [hp, Bool.false_eq_true, if_false, hid]
      exact ih

/-- After a successful record-session-statistics call, the stored counters of
the submitted player equal the aggregates over that player's SessionFact rows
in the resulting state.  Needs referential integrity of the incoming state
(every fact row names an existing player), which the storage engine enforces. -/
lemma countersMatch_after_success (db : DB) (r : RecordStatsReq)
    (hFK : fkPlayersB db = true)
    (h : (postPlayerSessions db r).1.status = 200) :
    (findPlayer (postPlayerSessions db r).2 r.player_id).map
      (countersMatchB (postPlayerSessions db r).2) = some true := by
  unfold postPlayerSessions at h ⊢
  by_cases hv : (r.player_id == 0 || r.session_id == 0) = true
  · rw [if_pos hv] at h
    simp at h
  · rw [if_neg hv] at h ⊢
    by_cases hok : factInsertOk db r.player_id r.session_id = true
    · rw [if_pos hok] at h ⊢
      -- the submitted player exists in the incoming state
      have hP : (db.players.any (fun p => p.id == r.player_id)) = true := by
        unfold factInsertOk at hok
        rcases (Bool.or_eq_true _ _).mp hok with hPair | hBoth
        · obtain ⟨ps, hmem, hps⟩ := List.any_eq_true.mp hPair
          have hpid : ps.player_id = r.player_id := by
            have := ((Bool.and_eq_true _ _).mp hps).1
            exact (Nat.beq_eq_true_eq _ _).mp this
          have := List.all_eq_true.mp hFK ps hmem
          rw [hpid] at this
          exact this
        · exact ((Bool.and_eq_true _ _).mp hBoth).1
      obtain ⟨p0, hp0⟩ : ∃ p0, db.players.find? (fun p => p.id == r.player_id) = some p0 :=
        Option.isSome_iff_exists.mp (List.find?_isSome.mpr (List.any_eq_true.mp hP))
      have hp0id : p0.id = r.player_id :=
        (Nat.beq_eq_true_eq _ _).mp
          (@List.find?_some _ (fun p => p.id == r.player_id) p0 db.players hp0)
      -- name the two intermediate states
      generalize hdb2 :
        upsertFact db r.player_id r.session_id
          (r.points_scored.getD 0) (r.saves.getD 0) (r.mvp_award.getD false) = db2
      have hfind2 : db2.players.find? (fun p => p.id == r.player_id) = some p0 := by
        rw [← hdb2, upsertFact_players]
        exact hp0
      have hfound :
          findPlayer (updateCounters db2 r.player_id) r.player_id
            = some { p0 with
                total_points_scored := sumPoints db2 r.player_id,
                total_saves := sumSaves db2 r.player_id,
                mvp_awards_count := ((mvpCount db2 r.player_id : Nat) : Int),
                sessions_attended_count := ((sessionCount db2 r.player_id : Nat) : Int) } := by
        show (db2.players.map _).find? _ = _
        rw [find?_update_by_id db2.players r.player_id
              (fun p => { p with
                  total_points_scored := sumPoints db2 r.player_id,
                  total_saves := sumSaves db2 r.player_id,
                  mvp_awards_count := ((mvpCount db2 r.player_id : Nat) : Int),
                  sessions_attended_count := ((sessionCount db2 r.player_id : Nat) : Int) })
              (fun p => rfl),
            hfind2]
        rfl
      rw [hfound]
      show some (countersMatchB (updateCounters db2 r.player_id) _) = some true
      unfold countersMatchB
      simp only [sumPoints_updateCounters, sumSaves_updateCounters,
        mvpCount_updateCounters, sessionCount_updateCounters, hp0id]
      simp
    · rw [if_neg hok] at h
      simp at h

/-- Claim C1: immediately after every successful record-session-statistics
call for a player, that player's four stored running counters equal the
aggregates (sum of points, sum of saves, count of MVP rows, count of rows)
over the player's current SessionFact rows. -/
theorem record_session_statistics_recomputes_counters (db : DB) (r : RecordStatsReq)
    (hFK : fkPlayersB db = true)
    (h : (postPlayerSessions db r).1.status = 200) :
    (findPlayer (postPlayerSessions db r).2 r.player_id).map
      (countersMatchB (postPlayerSessions db r).2) = some true :=
  countersMatch_after_success db r hFK h

/-- Witness for C1: recording the scenario statistics for Ann succeeds and
her counters agree with the aggregates afterwards. -/
theorem record_session_statistics_recomputes_counters_witness :
    fkPlayersB dbAS = true
    ∧ (postPlayerSessions dbAS reqStats1).1.status = 200
    ∧ (findPlayer (postPlayerSessions dbAS reqStats1).2 reqStats1.player_id).map
        (countersMatchB (postPlayerSessions dbAS reqStats1).2) = some true :=
  ⟨by decide, by decide,
   record_session_statistics_recomputes_counters dbAS reqStats1 (by decide) (by decide)⟩

/-! ## Claim C9: the repair endpoint empties the ledger but not the counters -/

/-- Claim C9: a successful repair-database call (later schema revision)
removes every SessionFact row while leaving the player rows — including
their four running counters — and the sessions untouched; hence every player
with any nonzero counter violates the counter-equals-aggregate invariant in
the resulting state, and a subsequent successful record-statistics call for a
player restores the invariant for that player. -/
theorem repair_database_breaks_counter_invariant (db : DB) (r : RecordStatsReq) :
    (repairDatabase db).2.players = db.players
    ∧ (repairDatabase db).2.player_sessions = []
    ∧ (repairDatabase db).2.sessions = db.sessions
    ∧ ((repairDatabase db).2.players.all (fun p =>
        (p.total_points_scored == 0 && p.total_saves == 0
          && p.mvp_awards_count == 0 && p.sessions_attended_count == 0)
        || !(countersMatchB (repairDatabase db).2 p)) = true)
    ∧ ((postPlayerSessions (repairDatabase db).2 r).1.status = 200 →
        (findPlayer (postPlayerSessions (repairDatabase db).2 r).2 r.player_id).map
          (countersMatchB (postPlayerSessions (repairDatabase db).2 r).2) = some true) := by
  refine ⟨rfl, rfl, rfl, ?_, ?_⟩
  · rw [List.all_eq_true]
    intro p hp
    show (countersMatchB (repairDatabase db).2 p || !(countersMatchB (repairDatabase db).2 p)) = true
    exact Bool.or_not_self _
  · intro h
    exact countersMatch_after_success (repairDatabase db).2 r rfl h

/-- Witness for C9: after repairing the recorded state, re-recording
statistics for Ann succeeds and makes her counters consistent again. -/
theorem repair_database_breaks_counter_invariant_witness :
    (postPlayerSessions (repairDatabase dbRec).2 reqStats2).1.status = 200
    ∧ (findPlayer (postPlayerSessions (repairDatabase dbRec).2 reqStats2).2 reqStats2.player_id).map
        (countersMatchB (postPlayerSessions (repairDatabase dbRec).2 reqStats2).2) = some true :=
  ⟨by decide,
   (repair_database_breaks_counter_invariant dbRec reqStats2).2.2.2.2 (by decide)⟩

/-! ## Claim C5: guarded averages in the roster-with-statistics view -/

/-- Claim C5: in every list-with-statistics result, each row's average points
and average saves equal the corresponding counter divided by the session
count rounded to two decimals whenever the session count is positive, and are
exactly 0 otherwise — the division is never reached with a zero count. -/
theorem players_with_stats_average_safe (db : DB) :
    (getPlayers db).all avgRowOk = true := by
  rw [List.all_eq_true]
  intro row hrow
  obtain ⟨p, hp, hrow⟩ := List.mem_map.mp hrow
  subst hrow
  simp only [avgRowOk, playerStatsRow]
  by_cases h : 0 < p.sessions_attended_count <;> simp [h, mul_one]

/-! ## Claim C2: upsert semantics of the SessionFact write -/

lemma filter_pair_of_pairFree (pid sid : Nat) (l : List PlayerSession)
    (h : pairFree pid sid l = true) :
    l.filter (pairMatch pid sid) = [] := by
  rw [List.filter_eq_nil_iff]
  intro ps hps
  have hfree := List.all_eq_true.mp h ps hps
  rw [Bool.not_eq_true'] at hfree
  simp [hfree]

lemma filter_pair_len_le_one (pid sid : Nat) (l : List PlayerSession)
    (hU : pairUniqueB l = true) :
    (l.filter (pairMatch pid sid)).length ≤ 1 := by
  induction l with
  | nil => simp
  | cons ps l ih =>
    rw [pairUniqueB] at hU
    obtain ⟨hfree, hrest⟩ := (Bool.and_eq_true _ _).mp hU
    rw [List.filter_cons]
    by_cases hm : pairMatch pid sid ps = true
    · rw [if_pos hm]
      obtain ⟨hm1, hm2⟩ := (Bool.and_eq_true _ _).mp hm
      rw [(Nat.beq_eq_true_eq _ _).mp hm1, (Nat.beq_eq_true_eq _ _).mp hm2] at hfree
      rw [filter_pair_of_pairFree pid sid l hfree]
      simp
    · rw [if_neg hm]
      exact ih hrest

lemma pairFree_map_upd (a b pid sid : Nat) (pts sv : Int) (mvp : Bool)
    (l : List PlayerSession) :
    pairFree a b (l.map (fun ps => if pairMatch pid sid ps then
        { ps with points_scored := pts, saves := sv, mvp_award := mvp } else ps))
      = pairFree a b l := by
  unfold pairFree
  rw [List.all_map]
  have hfun : ((fun ps => !(pairMatch a b ps))
        ∘ (fun ps => if pairMatch pid sid ps then
            { ps with points_scored := pts, saves := sv, mvp_award := mvp } else ps))
      = (fun ps => !(pairMatch a b ps)) := by
    funext x
    simp only [Function.comp_apply]
    by_cases hx : pairMatch pid sid x = true
    · rw [if_pos hx]; rfl
    · rw [if_neg hx]
  rw [hfun]

lemma pairUniqueB_map_upd (pid sid : Nat) (pts sv : Int) (mvp : Bool)
    (l : List PlayerSession) :
    pairUniqueB (l.map (fun ps => if pairMatch pid sid ps then
        { ps with points_scored := pts, saves := sv, mvp_award := mvp } else ps))
      = pairUniqueB l := by
  induction l with
  | nil => rfl
  | cons ps l ih =>
    rw [List.map_cons, pairUniqueB, pairUniqueB]
    by_cases hx : pairMatch pid sid ps = true
    · rw [if_pos hx]
      show (pairFree ps.player_id ps.session_id _ && _) = _
      rw [pairFree_map_upd, ih]
    · rw [if_neg hx]
      rw [pairFree_map_upd, ih]

lemma pairUniqueB_append_new (l : List PlayerSession) (x : PlayerSession)
    (hU : pairUniqueB l = true)
    (hA : l.any (pairMatch x.player_id x.session_id) = false) :
    pairUniqueB (l ++ [x]) = true := by
  induction l with
  | nil => rfl
  | cons ps l ih =>
    rw [List.cons_append, pairUniqueB]
    rw [pairUniqueB] at hU
    obtain ⟨hfree, hrest⟩ := (Bool.and_eq_true _ _).mp hU
    rw [List.any_cons] at hA
    obtain ⟨hps, hAl⟩ := Bool.or_eq_false_iff.mp hA
    rw [Bool.and_eq_true]
    constructor
    · unfold pairFree
      rw [List.all_append]
      rw [Bool.and_eq_true]
      refine ⟨hfree, ?_⟩
      show (!(pairMatch ps.player_id ps.session_id x) && true) = true
      unfold pairMatch
      unfold pairMatch at hps
      rw [nat_beq_comm x.player_id ps.player_id, nat_beq_comm x.session_id ps.session_id]
      rw [hps]
      rfl
    · exact ih hrest hAl

lemma pairUnique_preserved (db : DB) (r : RecordStatsReq)
    (hU : pairUniqueB db.player_sessions = true) :
    pairUniqueB (postPlayerSessions db r).2.player_sessions = true := by
  unfold postPlayerSessions
  split
  · exact hU
  · split
    · show pairUniqueB (updateCounters _ _).player_sessions = true
      rw [updateCounters_facts]
      unfold upsertFact
      split
      · show pairUniqueB (db.player_sessions.map _) = true
        rw [pairUniqueB_map_upd]
        exact hU
      · next hA =>
        rw [Bool.not_eq_true] at hA
        exact pairUniqueB_append_new db.player_sessions _ hU hA
    · exact hU

/-- After one successful record-session-statistics call, exactly one
SessionFact row carries the submitted (player, session) pair, and it holds
the values of that call (with the handler defaults applied). -/
lemma upsert_result_pair (db : DB) (r : RecordStatsReq)
    (hU : pairUniqueB db.player_sessions = true)
    (h : (postPlayerSessions db r).1.status = 200) :
    ((postPlayerSessions db r).2.player_sessions.filter
        (pairMatch r.player_id r.session_id)).length = 1
    ∧ ((postPlayerSessions db r).2.player_sessions.filter
        (pairMatch r.player_id r.session_id)).all
        (fun ps => ps.points_scored == r.points_scored.getD 0
          && ps.saves == r.saves.getD 0
          && ps.mvp_award == r.mvp_award.getD false) = true := by
  unfold postPlayerSessions at h ⊢
  by_cases hv : (r.player_id == 0 || r.session_id == 0) = true
  · rw [if_pos hv] at h
    simp at h
  · rw [if_neg hv] at h ⊢
    by_cases hok : factInsertOk db r.player_id r.session_id = true
    · rw [if_pos hok] at h ⊢
      show ((updateCounters _ _).player_sessions.filter _).length = 1
        ∧ ((updateCounters _ _).player_sessions.filter _).all _ = true
      rw [updateCounters_facts]
      unfold upsertFact
      by_cases hA : db.player_sessions.any (pairMatch r.player_id r.session_id) = true
      · rw [if_pos hA]
        simp only
        rw [List.filter_map]
        have hcomp : ((pairMatch r.player_id r.session_id)
              ∘ (fun ps => if pairMatch r.player_id r.session_id ps then
                  { ps with points_scored := r.points_scored.getD 0,
                            saves := r.saves.getD 0,
                            mvp_award := r.mvp_award.getD false }
                  else ps))
            = pairMatch r.player_id r.session_id := by
          funext x
          simp only [Function.comp_apply]
          by_cases hx : pairMatch r.player_id r.session_id x = true
          · rw [if_pos hx]; rfl
          · rw [if_neg hx]
        rw [hcomp]
        constructor
        · rw [List.length_map]
          refine Nat.le_antisymm (filter_pair_len_le_one _ _ _ hU) ?_
          obtain ⟨ps, hmem, hm⟩ := List.any_eq_true.mp hA
          exact List.length_pos_of_mem (List.mem_filter.mpr ⟨hmem, hm⟩)
        · rw [List.all_map, List.all_eq_true]
          intro x hx
          have hxm : pairMatch r.player_id r.session_id x = true :=
            (List.mem_filter.mp hx).2
          simp only [Function.comp_apply]
          rw [if_pos hxm]
          simp
      · rw [if_neg hA]
        simp only
        rw [Bool.not_eq_true] at hA
        have hnil : db.player_sessions.filter (pairMatch r.player_id r.session_id) = [] := by
          rw [List.filter_eq_nil_iff]
          intro ps hps
          have := List.any_eq_false.mp hA ps hps
          exact this
        rw [List.filter_append, hnil, List.nil_append, List.filter_cons]
        rw [if_pos (by simp [pairMatch])]
        constructor
        · simp
        · simp
    · rw [if_neg hok] at h
      simp at h

/-- Claim C2: recording statistics twice for the same (player, session) pair
(both calls succeeding, starting from a state respecting the uniqueness
constraint) leaves exactly one SessionFact row for the pair, and that row
carries the second call's points, saves and MVP flag. -/
theorem record_statistics_twice_upserts (db : DB) (r1 r2 : RecordStatsReq)
    (hU : pairUniqueB db.player_sessions = true)
    (_hpid : r1.player_id = r2.player_id) (_hsid : r1.session_id = r2.session_id)
    (_h1 : (postPlayerSessions db r1).1.status = 200)
    (h2 : (postPlayerSessions (postPlayerSessions db r1).2 r2).1.status = 200) :
    ((postPlayerSessions (postPlayerSessions db r1).2 r2).2.player_sessions.filter
        (pairMatch r2.player_id r2.session_id)).length = 1
    ∧ ((postPlayerSessions (postPlayerSessions db r1).2 r2).2.player_sessions.filter
        (pairMatch r2.player_id r2.session_id)).all
        (fun ps => ps.points_scored == r2.points_scored.getD 0
          && ps.saves == r2.saves.getD 0
          && ps.mvp_award == r2.mvp_award.getD false) = true :=
  upsert_result_pair (postPlayerSessions db r1).2 r2 (pairUnique_preserved db r1 hU) h2

/-- Witness for C2: submitting the scenario statistics and then a correction
for the same (Ann, 2024-03-01) pair leaves one row holding the second
submission's values. -/
theorem record_statistics_twice_upserts_witness :
    pairUniqueB dbAS.player_sessions = true
    ∧ (postPlayerSessions dbAS reqStats1).1.status = 200
    ∧ (postPlayerSessions (postPlayerSessions dbAS reqStats1).2 reqStats2).1.status = 200
    ∧ ((postPlayerSessions (postPlayerSessions dbAS reqStats1).2 reqStats2).2.player_sessions.filter
        (pairMatch reqStats2.player_id reqStats2.session_id)).length = 1
    ∧ ((postPlayerSessions (postPlayerSessions dbAS reqStats1).2 reqStats2).2.player_sessions.filter
        (pairMatch reqStats2.player_id reqStats2.session_id)).all
        (fun ps => ps.points_scored == reqStats2.points_scored.getD 0
          && ps.saves == reqStats2.saves.getD 0
          && ps.mvp_award == reqStats2.mvp_award.getD false) = true := by
  refine ⟨by decide, by decide, by decide, ?_⟩
  exact record_statistics_twice_upserts dbAS reqStats1 reqStats2
    (by decide) (by decide) (by decide) (by decide) (by decide)

/-! ## Claim C6: the two MVP-total computations -/

lemma mvpCount_as_filter (db : DB) (pid : Nat) :
    mvpCount db pid
      = ((db.player_sessions.filter (fun ps => ps.mvp_award)).filter
          (fun ps => ps.player_id == pid)).length := by
  unfold mvpCount factsFor
  rw [List.filter_filter, List.filter_filter]
  have : (fun (a : PlayerSession) => a.mvp_award && (a.player_id == pid))
      = (fun (a : PlayerSession) => (a.player_id == pid) && a.mvp_award) := by
    funext a
    exact Bool.and_comm _ _
  rw [this]

lemma indicator_sum_zero (x : Nat) (l : List Player)
    (h : ∀ q ∈ l, (x == q.id) = false) :
    (l.map (fun p => if x == p.id then 1 else 0)).sum = 0 := by
  induction l with
  | nil => rfl
  | cons p l ih =>
    rw [List.map_cons, List.sum_cons, h p (List.mem_cons_self p l)]
    simp only [Bool.false_eq_true, if_false, Nat.zero_add]
    exact ih (fun q hq => h q (List.mem_cons_of_mem p hq))

lemma indicator_sum_one (x : Nat) (l : List Player)
    (hN : idsNodupB l = true)
    (hmem : l.any (fun p => p.id == x) = true) :
    (l.map (fun p => if x == p.id then 1 else 0)).sum = 1 := by
  induction l with
  | nil => simp at hmem
  | cons p l ih =>
    rw [idsNodupB] at hN
    obtain ⟨hnd, hrest⟩ := (Bool.and_eq_true _ _).mp hN
    rw [Bool.not_eq_true'] at hnd
    rw [List.map_cons, List.sum_cons]
    by_cases hx : (x == p.id) = true
    · rw [if_pos hx]
      have hxeq : x = p.id := (Nat.beq_eq_true_eq _ _).mp hx
      have hzero : (l.map (fun q => if x == q.id then 1 else 0)).sum = 0 := by
        apply indicator_sum_zero
        intro q hq
        have hq2 := List.any_eq_false.mp hnd q hq
        subst hxeq
        rw [nat_beq_comm]
        cases hb : (q.id == p.id)
        · rfl
        · exact absurd hb hq2
      rw [hzero]
    · rw [if_neg hx]
      rw [List.any_cons] at hmem
      rcases (Bool.or_eq_true _ _).mp hmem with hh | ht
      · exact absurd (by rw [nat_beq_comm]; exact hh) hx
      · rw [Nat.zero_add]
        exact ih hrest ht

lemma sum_counts (S : List PlayerSession) (l : List Player)
    (hN : idsNodupB l = true)
    (hS : S.all (fun ps => l.any (fun p => p.id == ps.player_id)) = true) :
    (l.map (fun p => (S.filter (fun ps => ps.player_id == p.id)).length)).sum
      = S.length := by
  induction S with
  | nil => simp
  | cons ps S ih =>
    rw [List.all_cons] at hS
    obtain ⟨hmem, hSrest⟩ := (Bool.and_eq_true _ _).mp hS
    have hstep : ∀ p ∈ l,
        (fun p => ((ps :: S).filter (fun x => x.player_id == p.id)).length) p
          = (fun p => (if ps.player_id == p.id then 1 else 0)
              + (S.filter (fun x => x.player_id == p.id)).length) p := by
      intro p _
      simp only
      rw [List.filter_cons]
      by_cases hp : (ps.player_id == p.id) = true
      · rw [if_pos hp, if_pos hp, List.length_cons]
        omega
      · rw [if_neg hp, if_neg hp]
        omega
    rw [List.map_congr_left hstep, List.sum_map_add, indicator_sum_one ps.player_id l hN hmem,
      ih hSrest, List.length_cons]
    omega

/-- Counterexample for C6 as stated: in the reachable state where Ann's MVP
was recorded and the repair endpoint then dropped the SessionFact table, the
dashboard count over SessionFact rows (0) differs from the sum of the stored
MVP counters (1). -/
theorem dashboard_mvp_totals_agree_cex :
    ¬ (((totalMvps dbBroken : Nat) : Int)
        = (dbBroken.players.map (fun p => p.mvp_awards_count)).sum) := by
  decide

/-- Claim C6 (amended): whenever every stored MVP counter equals the count of
that player's MVP-flagged SessionFact rows — which holds after record-
statistics calls but is broken by the startup table drop and the repair
endpoint until the next write — the dashboard count of MVP-flagged
SessionFact rows equals the sum of the stored MVP counters. -/
theorem dashboard_mvp_totals_agree_amended (db : DB)
    (hN : idsNodupB db.players = true)
    (hFK : fkPlayersB db = true)
    (hCons : db.players.all
      (fun p => p.mvp_awards_count == ((mvpCount db p.id : Nat) : Int)) = true) :
    ((totalMvps db : Nat) : Int)
      = (db.players.map (fun p => p.mvp_awards_count)).sum := by
  have h1 : db.players.map (fun p => p.mvp_awards_count)
      = db.players.map (fun p => ((mvpCount db p.id : Nat) : Int)) :=
    List.map_congr_left (fun p hp => beq_iff_eq.mp (List.all_eq_true.mp hCons p hp))
  have h2 : db.players.map (fun p => ((mvpCount db p.id : Nat) : Int))
      = (db.players.map (fun p => mvpCount db p.id)).map (fun n => ((n : Nat) : Int)) := by
    rw [List.map_map]
    rfl
  rw [h1, h2, ← Nat.cast_list_sum]
  congr 1
  have h3 : db.players.map (fun p => mvpCount db p.id)
      = db.players.map (fun p =>
          ((db.player_sessions.filter (fun ps => ps.mvp_award)).filter
            (fun ps => ps.player_id == p.id)).length) :=
    List.map_congr_left (fun p _ => mvpCount_as_filter db p.id)
  rw [h3]
  refine (sum_counts _ db.players hN ?_).symm
  rw [List.all_eq_true]
  intro ps hps
  exact List.all_eq_true.mp hFK ps (List.mem_filter.mp hps).1

/-- Witness for the amended C6: in the recorded state the invariant holds and
the two MVP totals agree (both are 1). -/
theorem dashboard_mvp_totals_agree_amended_witness :
    idsNodupB dbRec.players = true
    ∧ fkPlayersB dbRec = true
    ∧ dbRec.players.all
        (fun p => p.mvp_awards_count == ((mvpCount dbRec p.id : Nat) : Int)) = true
    ∧ ((totalMvps dbRec : Nat) : Int)
        = (dbRec.players.map (fun p => p.mvp_awards_count)).sum :=
  ⟨by decide, by decide, by decide,
   dashboard_mvp_totals_agree_amended dbRec (by decide) (by decide) (by decide)⟩
